import Mathlib

/-!
Verification of the Red-Alert MQTT desktop notifier against its
natural-language specification.  The Python sources
(`mqtt_tray_app.py`, `mqtt_notifier.py`) are shallowly embedded below:
payload bytes are `List Nat`, decoded text is `List Char`, wall-clock
instants (`time.time()` values) are rationals, and the fallible payload
decode is an `Except`.
-/

set_option linter.unusedVariables false

namespace RedAlert

/-- The double-quote character, written via its code point. -/
def dquote : Char := Char.ofNat 34

/-- `TRIGGER_VALUES = ["on", "ON", "\"on\"", "\"ON\""]` from both source files. -/
def TRIGGER_VALUES : List (List Char) :=
  [['o', 'n'], ['O', 'N'], [dquote, 'o', 'n', dquote], [dquote, 'O', 'N', dquote]]

/-- The canonical trigger token `on`. -/
def onChars : List Char := ['o', 'n']

/-- The JSON-quoted trigger token `"on"`. -/
def quotedOn : List Char := [dquote, 'o', 'n', dquote]

/-- The configured topic `DEFAULT_MQTT_TOPIC` (same value as `MQTT_TOPIC`
in `mqtt_notifier.py`). -/
def DEFAULT_MQTT_TOPIC : List Char := "homeassistant/binary_sensor/alert/state".toList

/-- Whitespace characters removed by Python `str.strip()` (ASCII range). -/
def isPySpace (c : Char) : Bool :=
  c = ' ' || c = '\t' || c = '\n' || c = '\r' || c = Char.ofNat 11 || c = Char.ofNat 12

/-- Python `str.strip()`: drop leading and trailing whitespace. -/
def pyStrip (s : List Char) : List Char :=
  ((s.dropWhile isPySpace).reverse.dropWhile isPySpace).reverse

/-- Python `str.lower()` (character-wise lowering). -/
def pyLower (s : List Char) : List Char := s.map Char.toLower

/-- `msg.payload.decode().strip().lower()` applied to already-decoded text:
the normalization pipeline of `on_message` in both source files. -/
def normalizePayload (s : List Char) : List Char := pyLower (pyStrip s)

/-- The source's trigger test, from
`payload in [v.lower() for v in TRIGGER_VALUES]`
(`mqtt_tray_app.py` line 140, `mqtt_notifier.py` line 55). -/
def matchesCode (s : List Char) : Bool :=
  decide (normalizePayload s ∈ TRIGGER_VALUES.map pyLower)

/-- Modelled from the spec (§4.1 PayloadMatcher): strips one layer of
surrounding double-quote characters if present.  This operation does not
appear in the source; it is defined here only to compare the spec's
matcher with the source's. -/
def stripQuotes (s : List Char) : List Char :=
  if 2 ≤ s.length ∧ s.head? = some dquote ∧ s.getLast? = some dquote then
    (s.drop 1).dropLast
  else s

/-- Modelled from the spec (§4.1): trim, lower-case, strip one quote layer. -/
def specNormalize (s : List Char) : List Char := stripQuotes (normalizePayload s)

/-- Modelled from the spec (§4.1): true iff the normalized payload equals a
canonical (identically normalized) entry of the TriggerSet. -/
def matchesSpec (s : List Char) : Bool :=
  decide (specNormalize s ∈ TRIGGER_VALUES.map specNormalize)

/-- UTF-8 continuation byte. -/
def contByte (b : Nat) : Bool := 0x80 ≤ b && b < 0xC0

/-- Strict UTF-8 decoding, the behaviour of Python `bytes.decode()`:
`none` models a raised `UnicodeDecodeError`.  Rejects truncated sequences,
stray continuation bytes, overlong encodings, surrogates and values above
`U+10FFFF`. -/
def decodeUtf8 : List Nat → Option (List Char)
  | [] => some []
  | b1 :: rest =>
    if b1 < 0x80 then
      (decodeUtf8 rest).map (fun cs => Char.ofNat b1 :: cs)
    else if b1 < 0xC2 then none
    else if b1 < 0xE0 then
      match rest with
      | b2 :: rest2 =>
        if contByte b2 then
          (decodeUtf8 rest2).map
            (fun cs => Char.ofNat ((b1 - 0xC0) * 0x40 + (b2 - 0x80)) :: cs)
        else none
      | [] => none
    else if b1 < 0xF0 then
      match rest with
      | b2 :: b3 :: rest3 =>
        if contByte b2 && contByte b3
            && !(b1 == 0xE0 && b2 < 0xA0) && !(b1 == 0xED && 0xA0 ≤ b2) then
          (decodeUtf8 rest3).map
            (fun cs =>
              Char.ofNat ((b1 - 0xE0) * 0x1000 + (b2 - 0x80) * 0x40 + (b3 - 0x80)) :: cs)
        else none
      | _ => none
    else if b1 < 0xF5 then
      match rest with
      | b2 :: b3 :: b4 :: rest4 =>
        if contByte b2 && contByte b3 && contByte b4
            && !(b1 == 0xF0 && b2 < 0x90) && !(b1 == 0xF4 && 0x90 ≤ b2) then
          (decodeUtf8 rest4).map
            (fun cs =>
              Char.ofNat ((b1 - 0xF0) * 0x40000 + (b2 - 0x80) * 0x1000
                + (b3 - 0x80) * 0x40 + (b4 - 0x80)) :: cs)
        else none
      | _ => none
    else none

/-- `MQTTClient.__init__` sets `self.last_alert_time = 0`
(`mqtt_tray_app.py` line 102). -/
def initialLastAlertTime : ℚ := 0

/-- The debounce decision of `MQTTClient.on_message`
(`mqtt_tray_app.py` lines 141-144): fire and record `now` when
`current_time - self.last_alert_time > 10`, else suppress and keep the
recorded time.  The returned pair is (fired, new last_alert_time). -/
def shouldFire (now last : ℚ) : Bool × ℚ :=
  if now - last > 10 then (true, now) else (false, last)

/-- Error raised out of the message handlers. -/
inductive MsgError where
  | decodeError
deriving DecidableEq

/-- The branch of `MQTTClient.on_message` that runs on successfully
decoded text (`mqtt_tray_app.py` lines 137-145): normalize, test the
trigger set, and apply the debounce.  Returns (alert dispatched,
new last_alert_time). -/
def handleDecoded (s : List Char) (now last : ℚ) : Bool × ℚ :=
  if matchesCode s then shouldFire now last else (false, last)

/-- `MQTTClient.on_message` of `mqtt_tray_app.py` (lines 136-145).
The topic parameter is taken (the callback receives `msg.topic`) but the
body never tests it, only logs it.  `msg.payload.decode()` raises on
non-decodable bytes, modelled by `Except.error`. -/
def on_message (topic : List Char) (payload : List Nat) (now last : ℚ) :
    Except MsgError (Bool × ℚ) :=
  match decodeUtf8 payload with
  | none => Except.error MsgError.decodeError
  | some s => Except.ok (handleDecoded s now last)

/-- `on_message` of `mqtt_notifier.py` (lines 50-56): same decode and
trigger test, no debounce; returns whether `send_notification` is called. -/
def on_message_simple (topic : List Char) (payload : List Nat) :
    Except MsgError Bool :=
  match decodeUtf8 payload with
  | none => Except.error MsgError.decodeError
  | some s => Except.ok (matchesCode s)

/-- Fires of a whole message sequence: each element is (decoded payload,
`time.time()` at processing), handled in order by `MQTTClient.on_message`
with the `last_alert_time` field threaded through; returns the timestamps
at which `show_alert_notification` is called. -/
def runMessages : List (List Char × ℚ) → ℚ → List ℚ
  | [], _ => []
  | (p, t) :: rest, last =>
    if matchesCode p then
      let r := shouldFire t last
      if r.1 then t :: runMessages rest r.2 else runMessages rest r.2
    else runMessages rest last

/-- Notification times of `mqtt_notifier.py` over a message sequence:
its `on_message` (lines 50-56) calls `send_notification` on every trigger
match, with no debounce; each element is (decoded payload, `time.time()`
at processing). -/
def runMessagesSimple : List (List Char × ℚ) → List ℚ
  | [] => []
  | (p, t) :: rest =>
    if matchesCode p then t :: runMessagesSimple rest else runMessagesSimple rest

/-- The fields of `MQTTClient` relevant to connection supervision
(`mqtt_tray_app.py` lines 91-103). -/
structure ClientState where
  connected : Bool
  running : Bool
  last_alert_time : ℚ
deriving DecidableEq

/-- A freshly constructed and started `MQTTClient`
(`MQTTClient.__init__`, lines 92-103): not yet connected, running,
`last_alert_time = 0`. -/
def initClient : ClientState :=
  { connected := false, running := true, last_alert_time := initialLastAlertTime }

/-- `MQTTClient.on_connect` (lines 124-134): `connected` becomes true
exactly when the result code is 0. -/
def on_connect (c : ClientState) (rc : Nat) : ClientState :=
  if rc = 0 then { c with connected := true } else { c with connected := false }

/-- `MQTTClient.on_disconnect` (lines 147-153): clears `connected`. -/
def on_disconnect (c : ClientState) : ClientState :=
  { c with connected := false }

/-- `SystemTrayApp.reconnect` (lines 307-313): stop the old client and
replace it with a freshly constructed, started `MQTTClient`. -/
def reconnect (c : ClientState) : ClientState := initClient

/-- `self.connection_timer.setInterval(60000)` (line 228): the periodic
connection check runs every 60000 ms. -/
def connectionCheckIntervalMs : Nat := 60000

/-- `SystemTrayApp.check_connection` (lines 301-305): on each timer tick,
reconnect whenever the client is not connected. -/
def check_connection (c : ClientState) : ClientState :=
  if c.connected then c else reconnect c

/-- The source's trigger list, lowered as in `[v.lower() for v in TRIGGER_VALUES]`. -/
theorem triggers_lowered :
    TRIGGER_VALUES.map pyLower = [onChars, onChars, quotedOn, quotedOn] := by decide

/-- The spec's TriggerSet, normalized at construction time: every entry
normalizes to the canonical token `on`. -/
theorem triggers_specNormalized :
    TRIGGER_VALUES.map specNormalize = [onChars, onChars, onChars, onChars] := by decide

/-- Characterization of the source matcher. -/
theorem matchesCode_iff (s : List Char) :
    matchesCode s = true ↔
      (normalizePayload s = onChars ∨ normalizePayload s = quotedOn) := by
  simp [matchesCode, triggers_lowered]

/-- Characterization of the spec matcher. -/
theorem matchesSpec_iff (s : List Char) :
    matchesSpec s = true ↔ stripQuotes (normalizePayload s) = onChars := by
  simp [matchesSpec, triggers_specNormalized, specNormalize]

/-- A string quote-strips to the canonical token `on` exactly when it is
`on` itself or the quoted form. -/
theorem stripQuotes_eq_on (t : List Char) :
    stripQuotes t = onChars ↔ (t = onChars ∨ t = quotedOn) := by
  constructor
  · intro h
    unfold stripQuotes at h
    split_ifs at h with hc
    · obtain ⟨hlen2, hhead, hlast⟩ := hc
      have hlen : t.length = 4 := by
        have hl := congrArg List.length h
        simp [List.length_dropLast, onChars] at hl
        omega
      right
      rcases t with _ | ⟨a, t⟩
      · simp at hlen
      rcases t with _ | ⟨b, t⟩
      · simp at hlen
      rcases t with _ | ⟨c, t⟩
      · simp at hlen
      rcases t with _ | ⟨d, t⟩
      · simp at hlen
      rcases t with _ | ⟨e, t⟩
      · simp [List.head?] at hhead
        simp [List.getLast?] at hlast
        simp [List.dropLast, onChars] at h
        simp [quotedOn, hhead, hlast, h.1, h.2]
      · simp at hlen
    · exact Or.inl h
  · rintro (rfl | rfl)
    · decide
    · decide

/-- The source matcher and the spec matcher agree on every decoded payload. -/
theorem matches_agree (s : List Char) : matchesCode s = matchesSpec s := by
  have h1 := matchesCode_iff s
  have h2 := matchesSpec_iff s
  have h3 := stripQuotes_eq_on (normalizePayload s)
  cases hc : matchesCode s <;> cases hs : matchesSpec s <;> simp_all

/-- Debounce fires when the elapsed time strictly exceeds the window. -/
theorem shouldFire_of_gt (now last : ℚ) (h : 10 < now - last) :
    shouldFire now last = (true, now) := by
  simp [shouldFire, h]

/-- Debounce suppresses when the elapsed time does not exceed the window. -/
theorem shouldFire_of_le (now last : ℚ) (h : ¬ 10 < now - last) :
    shouldFire now last = (false, last) := by
  simp [shouldFire, h]

/-- Every dispatched alert of a run lies strictly more than the window
beyond the recorded last-fire time the run started from. -/
theorem runMessages_lt (msgs : List (List Char × ℚ)) :
    ∀ last x, x ∈ runMessages msgs last → last + 10 < x := by
  induction msgs with
  | nil => intro last x hx; simp [runMessages] at hx
  | cons m rest ih =>
    intro last x hx
    obtain ⟨p, t⟩ := m
    simp only [runMessages] at hx
    by_cases hm : matchesCode p
    · rw [if_pos hm] at hx
      by_cases hf : 10 < t - last
      · rw [shouldFire_of_gt t last hf] at hx
        simp at hx
        rcases hx with rfl | hx
        · linarith
        · have := ih t x hx
          linarith
      · rw [shouldFire_of_le t last hf] at hx
        simp at hx
        exact ih last x hx
    · rw [if_neg hm] at hx
      exact ih last x hx

/-- The dispatched alerts of any run are pairwise separated by strictly
more than the window. -/
theorem runMessages_pairwise (msgs : List (List Char × ℚ)) :
    ∀ last, (runMessages msgs last).Pairwise (fun a b => a + 10 < b) := by
  induction msgs with
  | nil => intro last; simp [runMessages]
  | cons m rest ih =>
    intro last
    obtain ⟨p, t⟩ := m
    simp only [runMessages]
    by_cases hm : matchesCode p
    · rw [if_pos hm]
      by_cases hf : 10 < t - last
      · rw [shouldFire_of_gt t last hf]
        rw [if_pos (by trivial)]
        simp only [List.pairwise_cons]
        exact ⟨fun x hx => runMessages_lt rest t x hx, ih t⟩
      · rw [shouldFire_of_le t last hf]
        simpa using ih last
    · rw [if_neg hm]
      exact ih last

/-- C1: for every byte payload, the source's matcher returns true iff the
payload — trimmed, lower-cased, and stripped of one surrounding layer of
double quotes if present — equals an identically normalized entry of the
TriggerSet; in particular every entry of `TRIGGER_VALUES` matches. -/
theorem matcher_agrees_with_spec :
    (∀ bytes : List Nat,
      (decodeUtf8 bytes).map matchesCode = (decodeUtf8 bytes).map matchesSpec)
    ∧ (∀ s : List Char,
        matchesCode s = true ↔ specNormalize s ∈ TRIGGER_VALUES.map specNormalize)
    ∧ TRIGGER_VALUES.all matchesCode = true := by
  refine ⟨?_, ?_, by decide⟩
  · intro bytes
    cases decodeUtf8 bytes with
    | none => rfl
    | some s => simp [matches_agree s]
  · intro s
    rw [matches_agree s]
    simp [matchesSpec]

/-- C2 counterexample: a message whose payload is the single non-decodable
byte 0xFF makes `on_message` propagate a decode error out of the handler
instead of treating the payload as a non-match. -/
theorem nondecodable_payload_raises :
    on_message DEFAULT_MQTT_TOPIC [0xFF] 100 0 = Except.error MsgError.decodeError := rfl

/-- C2 (amended): a payload whose bytes are not decodable makes both
message handlers propagate the decode error to their caller; the decode
is unguarded, so such a payload is not treated as a non-match. -/
theorem decode_failure_propagates (topic : List Char) (payload : List Nat)
    (now last : ℚ) (h : decodeUtf8 payload = none) :
    on_message topic payload now last = Except.error MsgError.decodeError
    ∧ on_message_simple topic payload = Except.error MsgError.decodeError := by
  constructor <;> simp [on_message, on_message_simple, h]

/-- Witness for C2's amended theorem at the invalid lead byte 0xC0. -/
theorem decode_failure_propagates_witness :
    decodeUtf8 [0xC0] = none
    ∧ on_message [] [0xC0] 0 0 = Except.error MsgError.decodeError :=
  ⟨by decide, (decode_failure_propagates [] [0xC0] 0 0 (by decide)).1⟩

/-- C3 counterexample: in the freshly initialized state no prior fire is
recorded (`last_alert_time = 0`), yet `shouldFire` at instant 5 returns
false — the code compares `now - 0 > 10` rather than testing whether a
prior fire exists. -/
theorem fresh_gate_suppresses_early_instant :
    (shouldFire 5 initialLastAlertTime).1 = false := by
  norm_num [shouldFire, initialLastAlertTime]

/-- C3 (amended): `last_alert_time` starts at 0, standing for "no prior
fire"; `shouldFire now` returns true and records `now` exactly when
`now - last` exceeds the 10-second window, so with no prior fire recorded
it fires exactly for instants greater than 10. -/
theorem shouldFire_updates_when_window_exceeded (now last : ℚ) :
    (shouldFire now last = (true, now) ↔ 10 < now - last)
    ∧ ((shouldFire now initialLastAlertTime).1 = true ↔ 10 < now) := by
  have hinit : now - initialLastAlertTime = now := by
    simp [initialLastAlertTime]
  constructor
  · constructor
    · intro h
      by_contra hc
      rw [shouldFire_of_le now last hc] at h
      simp at h
    · exact shouldFire_of_gt now last
  · constructor
    · intro h
      by_contra hc
      rw [shouldFire_of_le now initialLastAlertTime (by rw [hinit]; exact hc)] at h
      simp at h
    · intro h
      rw [shouldFire_of_gt now initialLastAlertTime (by rw [hinit]; exact h)]

/-- Witness instantiating C3's amended theorem: the fire direction at
now = 100, last = 0, and the only-if direction refuting a fire at the
early instant 5 of the fresh gate. -/
theorem shouldFire_updates_when_window_exceeded_witness :
    shouldFire 100 0 = (true, 100)
    ∧ (shouldFire 5 initialLastAlertTime).1 ≠ true :=
  ⟨(shouldFire_updates_when_window_exceeded 100 0).1.mpr (by norm_num),
    fun h => by
      have h2 := (shouldFire_updates_when_window_exceeded 5 initialLastAlertTime).2.mp h
      norm_num at h2⟩

/-- C4 counterexample: from the initial state at instant 0 the call
sequence `shouldFire 0`, `shouldFire (0+10)` yields (false, false), not
the claimed (true, false): the first call is already suppressed because
the gate compares against the sentinel 0. -/
theorem debounce_sequence_from_zero_fails :
    ((shouldFire 0 initialLastAlertTime).1,
      (shouldFire (0 + 10) (shouldFire 0 initialLastAlertTime).2).1)
    = (false, false) := by
  norm_num [shouldFire, initialLastAlertTime]

/-- C4 (amended): whenever the first call fires (its elapsed time exceeds
the window, e.g. a fresh gate at t > 10), it records t; the strict `>`
comparison then suppresses the call at exactly t + 10 and fires again at
t + 11. -/
theorem debounce_boundary_strict (t last : ℚ) (h : 10 < t - last) :
    shouldFire t last = (true, t)
    ∧ (shouldFire (t + 10) t).1 = false
    ∧ (shouldFire (t + 11) t).1 = true := by
  refine ⟨shouldFire_of_gt t last h, ?_, ?_⟩
  · rw [shouldFire_of_le (t + 10) t (by linarith)]
  · rw [shouldFire_of_gt (t + 11) t (by linarith)]

/-- Witness for C4's amended theorem at t = 100, last = 0. -/
theorem debounce_boundary_strict_witness :
    (10 : ℚ) < 100 - 0
    ∧ (shouldFire 100 0 = (true, 100)
        ∧ (shouldFire (100 + 10) 100).1 = false
        ∧ (shouldFire (100 + 11) 100).1 = true) :=
  ⟨by norm_num, debounce_boundary_strict 100 0 (by norm_num)⟩

/-- C5: a suppressed call leaves the recorded last-fire time unchanged. -/
theorem suppressed_leaves_state_unchanged (now last : ℚ)
    (h : (shouldFire now last).1 = false) :
    (shouldFire now last).2 = last := by
  by_cases hf : 10 < now - last
  · rw [shouldFire_of_gt now last hf] at h
    simp at h
  · rw [shouldFire_of_le now last hf]

/-- Witness for C5 at now = 5, last = 0 (suppressed). -/
theorem suppressed_leaves_state_unchanged_witness :
    (shouldFire 5 0).1 = false ∧ (shouldFire 5 0).2 = 0 :=
  ⟨by norm_num [shouldFire],
    suppressed_leaves_state_unchanged 5 0 (by norm_num [shouldFire])⟩

/-- C6 counterexample: `on_message` performs no topic check — a matching
payload arriving on the topic `x`, different from the configured topic,
still dispatches an alert and updates the debounce state, where the claim
demands no effect. -/
theorem unconfigured_topic_still_fires :
    ['x'] ≠ DEFAULT_MQTT_TOPIC
    ∧ on_message ['x'] [111, 110] 100 0 = Except.ok (true, 100) := by
  constructor
  · decide
  · have hd : decodeUtf8 [111, 110] = some ['o', 'n'] := by decide
    have hm : matchesCode ['o', 'n'] = true := by decide
    norm_num [on_message, hd, handleDecoded, hm, shouldFire]

/-- C6 (amended): the handlers ignore the topic argument entirely (it is
only logged); messages are processed identically on every topic. -/
theorem handlers_ignore_topic (t1 t2 : List Char) (payload : List Nat)
    (now last : ℚ) :
    on_message t1 payload now last = on_message t2 payload now last
    ∧ on_message_simple t1 payload = on_message_simple t2 payload :=
  ⟨rfl, rfl⟩

/-- C7 counterexample: the `mqtt_notifier.py` handler has no debounce —
two trigger messages one second apart both notify, 1 s < 10 s; and in the
tray app a client whose last alert fired at instant 100 is reconnected,
after which a trigger message at instant 105 fires again, 5 s < 10 s. -/
theorem alerts_within_window_possible :
    (runMessagesSimple [(['o', 'n'], 0), (['o', 'n'], 1)] = [0, 1]
      ∧ (1 : ℚ) - 0 < 10)
    ∧ (runMessages [(['o', 'n'], 105)] (reconnect ⟨true, true, 100⟩).last_alert_time
        = [105]
      ∧ (105 : ℚ) - 100 < 10) := by
  have hm : matchesCode ['o', 'n'] = true := by decide
  refine ⟨⟨?_, by norm_num⟩, ?_, by norm_num⟩
  · simp [runMessagesSimple, hm]
  · have hz : (reconnect ⟨true, true, 100⟩).last_alert_time = 0 := rfl
    rw [hz]
    norm_num [runMessages, hm, shouldFire]

/-- C7 (amended): within a single run of one tray-app `MQTTClient`
instance from its initial state, the timestamps at which alerts are
dispatched are pairwise more than the 10-second suppression window apart;
the guarantee does not extend to `mqtt_notifier.py` (no debounce) nor
across a reconnect (which resets the debounce state). -/
theorem alerts_pairwise_separated (msgs : List (List Char × ℚ)) :
    (runMessages msgs initialLastAlertTime).Pairwise (fun a b => a + 10 < b) :=
  runMessages_pairwise msgs initialLastAlertTime

/-- C8: the periodic connection check runs every 60000 ms and, whenever
the client is not connected, replaces it with a freshly constructed,
started client (a reconnect cycle); a failed connect and an unexpected
disconnect both leave the client not connected, so either is followed by
a reconnect attempt at the next check. -/
theorem periodic_check_reconnects :
    connectionCheckIntervalMs = 60000
    ∧ (∀ c : ClientState, c.connected = false → check_connection c = initClient)
    ∧ (∀ c : ClientState, (on_disconnect c).connected = false)
    ∧ (∀ (c : ClientState) (rc : Nat), rc ≠ 0 → (on_connect c rc).connected = false)
    ∧ initClient.running = true := by
  refine ⟨rfl, ?_, fun c => rfl, ?_, rfl⟩
  · intro c h
    simp [check_connection, h, reconnect]
  · intro c rc h
    simp [on_connect, h]

/-- Witness for C8 at a disconnected client and the failure code 1. -/
theorem periodic_check_reconnects_witness :
    (on_disconnect initClient).connected = false
    ∧ check_connection (on_disconnect initClient) = initClient
    ∧ (on_connect initClient 1).connected = false :=
  ⟨rfl, periodic_check_reconnects.2.1 (on_disconnect initClient) rfl,
    periodic_check_reconnects.2.2.2.1 initClient 1 (by decide)⟩

/-- C10: `reconnect` installs a freshly constructed client whose
`last_alert_time` is 0, so debounce history does not survive a reconnect:
a matching message at any instant greater than 10 dispatches an alert
regardless of the pre-reconnect history. -/
theorem reconnect_resets_debounce (c : ClientState) (s : List Char) (now : ℚ)
    (hm : matchesCode s = true) (hn : 10 < now) :
    (reconnect c).last_alert_time = 0
    ∧ handleDecoded s now (reconnect c).last_alert_time = (true, now) := by
  refine ⟨rfl, ?_⟩
  have hz : (reconnect c).last_alert_time = 0 := rfl
  rw [hz]
  simp only [handleDecoded, hm, if_pos]
  rw [shouldFire_of_gt now 0 (by linarith)]

/-- Witness for C10: a client that fired recently (last-fire 1000) is
reconnected; the trigger payload at instant 11 fires. -/
theorem reconnect_resets_debounce_witness :
    matchesCode ['o', 'n'] = true ∧ (10 : ℚ) < 11
    ∧ (reconnect ⟨true, true, 1000⟩).last_alert_time = 0
    ∧ handleDecoded ['o', 'n'] 11 (reconnect ⟨true, true, 1000⟩).last_alert_time
      = (true, 11) := by
  have h := reconnect_resets_debounce ⟨true, true, 1000⟩ ['o', 'n'] 11
    (by decide) (by norm_num)
  exact ⟨by decide, by norm_num, h.1, h.2⟩

end RedAlert
